import Mathlib

/-!
# VeriVote election contract: shallow embedding and verification

This file embeds `src/projects/contracts/smart_contracts/voting/contract.py`
(an Algorand Python / algopy ARC4 contract) and proves properties of its five
transitions.

Modelling notes, faithful to algopy semantics:

* All numeric values on the AVM are unsigned 64-bit integers.  We model them as
  `Nat`; AVM arithmetic does not wrap on overflow, it panics and the whole
  transaction aborts with no state change, so the only place overflow can occur
  (the `+= 1` increments in `cast_vote`) is modelled as an explicit abort when
  the incremented value would reach `2 ^ 64`.
* In Algorand Python, an attribute assigned a plain value in `__init__`
  (`self.x = UInt64(0)`) declares application **global** state; per-account
  local state requires `LocalState(...)`.  `contract.py` assigns `has_voted`
  and `vote_timestamp` as plain `UInt64` attributes, so — despite the source
  comments calling them "local state (per voter)" — they are single global
  slots shared by every account, and `cast_vote` / `get_voter_status` /
  `opt_in_voter` read and write those shared slots with no dependence on the
  caller.  The embedding reflects the code as executed (the repository's own
  test harness, which drives the plain Python object, behaves identically).
* Each `assert cond, msg` becomes a conditional returning `Except.error msg`;
  the AVM guarantees a failed call leaves state untouched, which the trace
  semantics (`stepCall`) encodes by keeping the pre-state on `Except.error`.
* Bytes values (`arc4.DynamicBytes`) are modelled as `List Nat` of byte
  values; `ai_hash.copy()` is a value copy, which `List` assignment already is.
-/

namespace VeriVote

/-- Decidable equality on `Except`, so that concrete call results can be
checked by `decide`. -/
instance {ε α : Type} [DecidableEq ε] [DecidableEq α] : DecidableEq (Except ε α)
  | .error a, .error b =>
      if h : a = b then .isTrue (by rw [h]) else .isFalse (by simp [h])
  | .error _, .ok _ => .isFalse (fun h => Except.noConfusion h)
  | .ok _, .error _ => .isFalse (fun h => Except.noConfusion h)
  | .ok a, .ok b =>
      if h : a = b then .isTrue (by rw [h]) else .isFalse (by simp [h])

/-- `2 ^ 64`, the first value an AVM `UInt64` cannot hold. -/
def U64LIMIT : Nat := 18446744073709551616

/-- The contract's storage: the seven global slots declared in
`VotingContract.__init__`, plus `has_voted` / `vote_timestamp` which algopy
also makes global slots (see module comment). -/
structure ContractState where
  candidate_a_votes : Nat
  candidate_b_votes : Nat
  election_start : Nat
  election_end : Nat
  total_voters : Nat
  ai_report_hash : List Nat
  election_closed : Nat
  has_voted : Nat
  vote_timestamp : Nat
deriving Repr, DecidableEq

/-- `VotingContract.__init__`: every slot zero / empty. -/
def initState : ContractState :=
  { candidate_a_votes := 0
    candidate_b_votes := 0
    election_start := 0
    election_end := 0
    total_voters := 0
    ai_report_hash := []
    election_closed := 0
    has_voted := 0
    vote_timestamp := 0 }

/-- `VotingContract.create_election`.  `creator` is `Global.creator_address`,
`sender` is `Txn.sender`, `now` is `Global.latest_timestamp`; `s`, `e` are the
`start_time` / `end_time` arguments.  Asserts in source order: creator check,
`start < end`, `end > now`; then resets tallies and the closed flag, sets the
window and clears the stored hash. -/
def create_election (creator : Nat) (st : ContractState) (sender now s e : Nat) :
    Except String (String × ContractState) :=
  if sender = creator then
    if s < e then
      if now < e then
        .ok ("Election created successfully",
          { st with
            candidate_a_votes := 0
            candidate_b_votes := 0
            total_voters := 0
            election_closed := 0
            election_start := s
            election_end := e
            ai_report_hash := [] })
      else .error "End time must be in the future"
    else .error "Start time must be before end time"
  else .error "Only creator can create election"

/-- `VotingContract.cast_vote`.  Checks, in source order: `now ≥ start`,
`now ≤ end`, not closed, not yet voted, candidate id in `{1, 2}`; then
increments the chosen tally and `total_voters` (each `+= 1` aborts the call if
it would overflow a `UInt64`), marks `has_voted` and records the timestamp.
The caller's identity plays no role: `has_voted` is a global slot. -/
def cast_vote (st : ContractState) (now candidate : Nat) :
    Except String (String × ContractState) :=
  if st.election_start ≤ now then
    if now ≤ st.election_end then
      if st.election_closed = 0 then
        if st.has_voted = 0 then
          if candidate = 1 ∨ candidate = 2 then
            if candidate = 1 then
              if st.candidate_a_votes + 1 < U64LIMIT ∧ st.total_voters + 1 < U64LIMIT then
                .ok ("Vote recorded successfully",
                  { st with
                    candidate_a_votes := st.candidate_a_votes + 1
                    total_voters := st.total_voters + 1
                    has_voted := 1
                    vote_timestamp := now })
              else .error "uint64 overflow"
            else
              if st.candidate_b_votes + 1 < U64LIMIT ∧ st.total_voters + 1 < U64LIMIT then
                .ok ("Vote recorded successfully",
                  { st with
                    candidate_b_votes := st.candidate_b_votes + 1
                    total_voters := st.total_voters + 1
                    has_voted := 1
                    vote_timestamp := now })
              else .error "uint64 overflow"
          else .error "Invalid candidate ID (must be 1 or 2)"
        else .error "You have already voted"
      else .error "Election is closed"
    else .error "Election has ended"
  else .error "Election has not started yet"

/-- `VotingContract.close_election`.  Asserts creator and `now > end`, then
stores the hash and sets the closed flag.  The source contains **no** check on
the hash length (the length assertion is only a comment deferring validation
to the frontend/tests) and no check that the election is not already closed. -/
def close_election (creator : Nat) (st : ContractState) (sender now : Nat)
    (ai_hash : List Nat) : Except String (String × ContractState) :=
  if sender = creator then
    if st.election_end < now then
      .ok ("Election closed successfully with AI report hash stored",
        { st with
          ai_report_hash := ai_hash
          election_closed := 1 })
    else .error "Election has not ended yet"
  else .error "Only creator can close election"

/-- `VotingContract.opt_in_voter`: unconditionally zeroes `has_voted` and
`vote_timestamp` and succeeds. -/
def opt_in_voter (st : ContractState) : Except String (String × ContractState) :=
  .ok ("Voter opted in successfully",
    { st with has_voted := 0, vote_timestamp := 0 })

/-- `VotingContract.get_results` (read-only): the seven-field snapshot. -/
def get_results (st : ContractState) :
    Nat × Nat × Nat × Nat × Nat × Nat × List Nat :=
  (st.candidate_a_votes, st.candidate_b_votes, st.total_voters,
   st.election_start, st.election_end, st.election_closed, st.ai_report_hash)

/-- `VotingContract.get_voter_status` (read-only): `(has_voted,
vote_timestamp)`.  These are global slots, so the answer does not depend on
which account asks. -/
def get_voter_status (st : ContractState) : Nat × Nat :=
  (st.has_voted, st.vote_timestamp)

/-- One ABI call: the method selector plus its typed arguments. -/
inductive Call where
  | createElection (s e : Nat)
  | optInVoter
  | castVote (candidate : Nat)
  | closeElection (ai_hash : List Nat)
  | getResults
  | getVoterStatus
deriving Repr, DecidableEq

/-- One transaction: the authenticated sender, the ledger timestamp at
execution, and the call. -/
structure TxnCall where
  sender : Nat
  now : Nat
  call : Call
deriving Repr, DecidableEq

/-- Dispatch one call against the state.  The read-only methods never fail and
leave the state unchanged. -/
def runMethod (creator : Nat) (st : ContractState) (sender now : Nat) :
    Call → Except String (String × ContractState)
  | .createElection s e => create_election creator st sender now s e
  | .optInVoter => opt_in_voter st
  | .castVote candidate => cast_vote st now candidate
  | .closeElection ai_hash => close_election creator st sender now ai_hash
  | .getResults => .ok ("", st)
  | .getVoterStatus => .ok ("", st)

/-- `true` iff the call committed. -/
def callOk (r : Except String (String × ContractState)) : Bool :=
  match r with
  | .ok _ => true
  | .error _ => false

/-- The post-state of one transaction: a rejected call leaves the state
exactly as it was (AVM per-transaction atomicity). -/
def stepCall (creator : Nat) (st : ContractState) (t : TxnCall) : ContractState :=
  match runMethod creator st t.sender t.now t.call with
  | .ok (_, st2) => st2
  | .error _ => st

/-- Run a whole transaction sequence from a state. -/
def runTrace (creator : Nat) (st : ContractState) : List TxnCall → ContractState
  | [] => st
  | t :: rest => runTrace creator (stepCall creator st t) rest

/-- The tally invariant: `total_voters = candidate_a_votes + candidate_b_votes`. -/
def TallyInv (st : ContractState) : Prop :=
  st.total_voters = st.candidate_a_votes + st.candidate_b_votes

/-- Every single transaction preserves the tally invariant: the only writes to
the three counters are `create_election`'s joint reset to zero and
`cast_vote`'s paired increments. -/
theorem tallyInv_stepCall (creator : Nat) (st : ContractState) (t : TxnCall)
    (h : TallyInv st) : TallyInv (stepCall creator st t) := by
  rcases t with ⟨sender, now, c⟩
  cases c <;>
    simp only [stepCall, runMethod, create_election, cast_vote, close_election,
      opt_in_voter, TallyInv] at h ⊢ <;>
    (try split_ifs) <;> simp_all <;> omega

/-- The tally invariant is preserved by whole transaction sequences. -/
theorem tallyInv_runTrace (creator : Nat) (st : ContractState)
    (tr : List TxnCall) (h : TallyInv st) : TallyInv (runTrace creator st tr) := by
  induction tr generalizing st with
  | nil => exact h
  | cons t rest ih => exact ih _ (tallyInv_stepCall creator st t h)

/-- C3: in every state reachable from the initial all-zero state by any
sequence of calls (any senders, any timestamps), `total_voters` equals
`candidate_a_votes + candidate_b_votes`. -/
theorem C3_tally_invariant (creator : Nat) (tr : List TxnCall) :
    (runTrace creator initState tr).total_voters =
      (runTrace creator initState tr).candidate_a_votes +
        (runTrace creator initState tr).candidate_b_votes :=
  tallyInv_runTrace creator initState tr rfl

/-- C5: `election_closed` starts at `0` (false), and once it is `1` (true) it
stays `1` across any transaction that is not a successful `create_election`:
`cast_vote` rejects while closed, `close_election` re-asserts the flag,
`opt_in_voter` and the read-only methods never touch it, and a failed
`create_election` leaves the state untouched. -/
theorem C5_closed_is_irreversible (creator : Nat) (st : ContractState) (t : TxnCall)
    (hclosed : st.election_closed = 1)
    (hnc : ∀ s e, t.call = Call.createElection s e →
      callOk (create_election creator st t.sender t.now s e) = false) :
    initState.election_closed = 0 ∧ (stepCall creator st t).election_closed = 1 := by
  refine ⟨rfl, ?_⟩
  rcases t with ⟨sender, now, c⟩
  cases c
  case createElection s e =>
    have hfail := hnc s e rfl
    simp only [stepCall, runMethod] at hfail ⊢
    cases hres : create_election creator st sender now s e with
    | ok p => rw [hres] at hfail; simp [callOk] at hfail
    | error m => simp [hres, hclosed]
  all_goals
    (simp only [stepCall, runMethod, cast_vote, close_election, opt_in_voter];
      (try split_ifs) <;> simp_all)

/-- C5 witness: from a closed state, an `opt_in_voter` transaction (not a
`create_election`) leaves `election_closed = 1`. -/
theorem C5_witness :
    initState.election_closed = 0 ∧
    (stepCall 0 { initState with election_closed := 1 }
        ⟨1, 7, Call.optInVoter⟩).election_closed = 1 :=
  C5_closed_is_irreversible 0 { initState with election_closed := 1 }
    ⟨1, 7, Call.optInVoter⟩ rfl (fun _ _ h => Call.noConfusion h)

/-- C6: `cast_vote`'s five checks run in source order, each with its own
reject reason, and an earlier failing check masks the later ones: each reason
occurs exactly when its own condition fails while all earlier conditions hold.
When all five hold the vote is recorded (the only further obstruction is
`UInt64` overflow of the tallies, which aborts the call; the success clause
therefore carries the word-size side conditions). -/
theorem C6_cast_vote_check_order (st : ContractState) (now candidate : Nat) :
    (cast_vote st now candidate = .error "Election has not started yet" ↔
      now < st.election_start) ∧
    (cast_vote st now candidate = .error "Election has ended" ↔
      st.election_start ≤ now ∧ st.election_end < now) ∧
    (cast_vote st now candidate = .error "Election is closed" ↔
      st.election_start ≤ now ∧ now ≤ st.election_end ∧ st.election_closed ≠ 0) ∧
    (cast_vote st now candidate = .error "You have already voted" ↔
      st.election_start ≤ now ∧ now ≤ st.election_end ∧ st.election_closed = 0 ∧
        st.has_voted ≠ 0) ∧
    (cast_vote st now candidate = .error "Invalid candidate ID (must be 1 or 2)" ↔
      st.election_start ≤ now ∧ now ≤ st.election_end ∧ st.election_closed = 0 ∧
        st.has_voted = 0 ∧ candidate ≠ 1 ∧ candidate ≠ 2) ∧
    (st.election_start ≤ now ∧ now ≤ st.election_end ∧ st.election_closed = 0 ∧
        st.has_voted = 0 ∧ (candidate = 1 ∨ candidate = 2) ∧
        st.candidate_a_votes + 1 < U64LIMIT ∧ st.candidate_b_votes + 1 < U64LIMIT ∧
        st.total_voters + 1 < U64LIMIT →
      ∃ st2, cast_vote st now candidate = .ok ("Vote recorded successfully", st2)) := by
  unfold cast_vote
  split_ifs <;> (refine ⟨?_, ?_, ?_, ?_, ?_, ?_⟩ <;> simp_all)

/-- C6 witness: in an open election a fresh vote for candidate 1 is recorded. -/
theorem C6_witness :
    ∃ st2, cast_vote { initState with election_start := 10, election_end := 100 } 20 1 =
      .ok ("Vote recorded successfully", st2) :=
  (C6_cast_vote_check_order
      { initState with election_start := 10, election_end := 100 } 20 1).2.2.2.2.2
    (by decide)

/-- C7: whenever `create_election creator st sender now s e` succeeds, the
post-state has `election_start = s`, `election_end = e`, zero tallies and
voter count, `election_closed = 0` and an empty `ai_report_hash`. -/
theorem C7_create_postconditions (creator : Nat) (st : ContractState)
    (sender now s e : Nat) (msg : String) (st2 : ContractState)
    (h : create_election creator st sender now s e = .ok (msg, st2)) :
    st2.election_start = s ∧ st2.election_end = e ∧ st2.candidate_a_votes = 0 ∧
    st2.candidate_b_votes = 0 ∧ st2.total_voters = 0 ∧ st2.election_closed = 0 ∧
    st2.ai_report_hash = [] := by
  unfold create_election at h
  split_ifs at h <;> simp_all
  rcases h with ⟨hmsg, hst⟩
  subst hst
  simp

/-- The state produced by `create_election 0 initState 0 5 10 100`. -/
def c7_created : ContractState :=
  { initState with election_start := 10, election_end := 100 }

/-- C7 witness: the postconditions at the concrete successful call
`create_election 0 initState 0 5 10 100`. -/
theorem C7_witness :
    c7_created.election_start = 10 ∧ c7_created.election_end = 100 ∧
    c7_created.candidate_a_votes = 0 ∧ c7_created.candidate_b_votes = 0 ∧
    c7_created.total_voters = 0 ∧ c7_created.election_closed = 0 ∧
    c7_created.ai_report_hash = [] :=
  C7_create_postconditions 0 initState 0 5 10 100 "Election created successfully"
    c7_created (by decide)

/-- C8: `create_election` rejects whenever the sender is not the creator, or
`s ≥ e` (here `e ≤ s`), or `e ≤ now`, and in every such case the transaction
leaves the state exactly as it was. -/
theorem C8_create_rejections (creator : Nat) (st : ContractState)
    (sender now s e : Nat) (h : sender ≠ creator ∨ e ≤ s ∨ e ≤ now) :
    callOk (create_election creator st sender now s e) = false ∧
    stepCall creator st ⟨sender, now, Call.createElection s e⟩ = st := by
  simp only [stepCall, runMethod]
  unfold create_election
  split_ifs with h1 h2 h3 <;> simp_all [callOk]
  omega

/-- C8 witness: a non-creator call is rejected and changes nothing. -/
theorem C8_witness :
    callOk (create_election 0 initState 1 5 10 100) = false ∧
    stepCall 0 initState ⟨1, 5, Call.createElection 10 100⟩ = initState :=
  C8_create_rejections 0 initState 1 5 10 100 (by decide)

/-- C10: on the untouched contract (`election_end = 0`), any `close_election`
call by the creator at any time `now > 0` succeeds with a hash of any length,
storing the hash and setting `election_closed = 1`, even though no election
was ever created. -/
theorem C10_close_unconfigured (creator now : Nat) (ai_hash : List Nat)
    (hnow : 0 < now) :
    close_election creator initState creator now ai_hash =
      .ok ("Election closed successfully with AI report hash stored",
        { initState with ai_report_hash := ai_hash, election_closed := 1 }) := by
  simp [close_election, initState, hnow]

/-- C10 witness: closing the unconfigured contract at `now = 5` with a
3-byte hash succeeds. -/
theorem C10_witness :
    close_election 0 initState 0 5 [1, 2, 3] =
      .ok ("Election closed successfully with AI report hash stored",
        { initState with ai_report_hash := [1, 2, 3], election_closed := 1 }) :=
  C10_close_unconfigured 0 5 [1, 2, 3] (by decide)

/-- C4 (amended): re-closing is unrestricted — from an already-closed state, a
`close_election` call by the creator after `election_end` succeeds again and
overwrites `ai_report_hash` with the new hash (`election_closed` stays `1`). -/
theorem C4_amended_reclose_overwrites (creator : Nat) (st : ContractState)
    (now : Nat) (ai_hash : List Nat) (_hclosed : st.election_closed = 1)
    (hend : st.election_end < now) :
    close_election creator st creator now ai_hash =
      .ok ("Election closed successfully with AI report hash stored",
        { st with ai_report_hash := ai_hash, election_closed := 1 }) := by
  simp [close_election, hend]

/-- The state after closing the unconfigured contract with 32 bytes `97`. -/
def c4_state1 : ContractState :=
  stepCall 0 initState ⟨0, 5, Call.closeElection (List.replicate 32 97)⟩

/-- C4 counterexample: after a successful close stored 32 bytes of `97`, a
second `close_election` with 32 bytes of `98` is accepted (not rejected) and
changes the stored `ai_report_hash` — so the second call is neither
disallowed nor a hash-preserving no-op, refuting the claim. -/
theorem C4_counterexample :
    c4_state1.election_closed = 1 ∧
    c4_state1.ai_report_hash = List.replicate 32 97 ∧
    callOk (close_election 0 c4_state1 0 6 (List.replicate 32 98)) = true ∧
    (stepCall 0 c4_state1
        ⟨0, 6, Call.closeElection (List.replicate 32 98)⟩).ai_report_hash ≠
      c4_state1.ai_report_hash := by decide

/-- C4 witness: the amended statement at the concrete closed state. -/
theorem C4_witness :
    close_election 0 c4_state1 0 7 [1, 2] =
      .ok ("Election closed successfully with AI report hash stored",
        { c4_state1 with ai_report_hash := [1, 2], election_closed := 1 }) :=
  C4_amended_reclose_overwrites 0 c4_state1 7 [1, 2] (by decide) (by decide)

/-- Account 1 opts in, votes, then opts in again (all inside the election
window of the single configured election). -/
def c1_trace : List TxnCall :=
  [⟨0, 5, Call.createElection 10 100⟩, ⟨1, 20, Call.optInVoter⟩,
   ⟨1, 20, Call.castVote 1⟩, ⟨1, 30, Call.optInVoter⟩]

/-- C1 (bug evaluation): after account 1's successful vote (`total_voters = 1`,
`has_voted = 1`), an intervening `opt_in_voter` call resets `has_voted`, and
account 1's second `cast_vote` in the same election configuration is accepted
— it does not reject with "already voted" — and the tallies change to
`total_voters = 2`, `candidate_b_votes = 1`. -/
theorem C1_revote_after_opt_in :
    (runTrace 0 initState (List.take 3 c1_trace)).total_voters = 1 ∧
    (runTrace 0 initState (List.take 3 c1_trace)).has_voted = 1 ∧
    callOk (cast_vote (runTrace 0 initState c1_trace) 40 2) = true ∧
    (stepCall 0 (runTrace 0 initState c1_trace) ⟨1, 40, Call.castVote 2⟩).total_voters = 2 ∧
    (stepCall 0 (runTrace 0 initState c1_trace) ⟨1, 40, Call.castVote 2⟩).candidate_b_votes = 1 := by
  decide

/-- An election created with window `[10, 200]`, now past its end. -/
def c2_ended_state : ContractState :=
  runTrace 0 initState [⟨0, 100, Call.createElection 10 200⟩]

/-- C2 (bug evaluation): the creator closes the ended election with the
5-byte value `b"short"` (the repository's own test input) and the call is
accepted — there is no length check inside the transition — storing the
5-byte hash and setting `election_closed = 1`, where the claim (and the
repository's test suite) require a rejection. -/
theorem C2_no_hash_length_check :
    List.length [115, 104, 111, 114, 116] ≠ 32 ∧
    callOk (close_election 0 c2_ended_state 0 300 [115, 104, 111, 114, 116]) = true ∧
    (stepCall 0 c2_ended_state
        ⟨0, 300, Call.closeElection [115, 104, 111, 114, 116]⟩).ai_report_hash =
      [115, 104, 111, 114, 116] ∧
    (stepCall 0 c2_ended_state
        ⟨0, 300, Call.closeElection [115, 104, 111, 114, 116]⟩).election_closed = 1 := by
  decide

/-- Account 1 opts in and votes at time 20; account 2 never opts in. -/
def c9_trace : List TxnCall :=
  [⟨0, 5, Call.createElection 10 100⟩, ⟨1, 20, Call.optInVoter⟩, ⟨1, 20, Call.castVote 1⟩]

/-- C9 (bug evaluation): `has_voted` / `vote_timestamp` are single global
slots, so after account 1's vote, `get_voter_status` answers `(1, 20)` to
every caller — in particular to account 2, which never opted in and never
voted — instead of `(0, 0)`.  The read itself (here issued by account 2)
does succeed without mutating state. -/
theorem C9_voter_status_is_global :
    get_voter_status (runTrace 0 initState c9_trace) = (1, 20) ∧
    ((1, 20) : Nat × Nat) ≠ (0, 0) ∧
    runMethod 0 (runTrace 0 initState c9_trace) 2 25 Call.getVoterStatus =
      .ok ("", runTrace 0 initState c9_trace) := by decide

end VeriVote
